import Mathlib

/-!
Verification of the RetailCore transactional workflow engine
(`services/retailcore/app/main.py`) and its action gateway
(`services/retail_mcp/app/logic.py`).

Modelling conventions:
* SQLite tables are Lean lists of row structures; `SELECT ... WHERE key`
  is `List.find?`, `UPDATE ... WHERE key` is `List.map` guarded by the key
  predicate, `INSERT` is list append.
* The sqlite3 connection context manager commits on normal exit and rolls
  back when an exception escapes; each endpoint is therefore a function
  returning `Except status-code response` paired with the post-state, where
  the error case restores the pre-state (rollback).
* Python `datetime` instants are `Nat` seconds; `.date()` is division by
  86400. Human-readable ISO strings produced by `isoformat()` are passed in
  as opaque `String` parameters.
* `json.dumps(payload, sort_keys=True, separators=(",", ":"))` is embedded
  exactly (sorted keys, Python/JSON string escaping, fixed separators) over
  a finite-map payload of string/int/bool values.
* `secrets.token_urlsafe` is nondeterministic; the fresh token is an
  explicit `String` parameter.
* `haversine_miles` computes over IEEE doubles (`math.sin` etc.), which a
  shallow embedding cannot reproduce; `inventory_lookup` takes the distance
  function as an explicit parameter over exact rationals (every double is a
  rational).  Python `round(x, 2)` is modelled as round-half-to-even on ℚ.
-/

namespace RetailCore

/-! ### JSON values and canonical serialization (`_canonical_payload`) -/

inductive JVal where
  | s (v : String)
  | i (v : Int)
  | b (v : Bool)
deriving DecidableEq, Repr

/-- A JSON object payload: association list of key/value pairs
(Python dicts here always have distinct keys). -/
abbrev Payload := List (String × JVal)

def hexDigitChar : Nat → Char
  | 0 => '0' | 1 => '1' | 2 => '2' | 3 => '3' | 4 => '4'
  | 5 => '5' | 6 => '6' | 7 => '7' | 8 => '8' | 9 => '9'
  | 10 => 'a' | 11 => 'b' | 12 => 'c' | 13 => 'd' | 14 => 'e' | _ => 'f'

def uEscape (n : Nat) : String :=
  "\\u" ++ String.mk [hexDigitChar (n / 4096 % 16), hexDigitChar (n / 256 % 16),
    hexDigitChar (n / 16 % 16), hexDigitChar (n % 16)]

/-- Python `json` string escaping (`ensure_ascii=True` default). -/
def escChar (c : Char) : String :=
  if c = '"' then "\\\""
  else if c = '\\' then "\\\\"
  else if c = '\n' then "\\n"
  else if c = '\t' then "\\t"
  else if c = '\r' then "\\r"
  else if c.toNat = 8 then "\\b"
  else if c.toNat = 12 then "\\f"
  else if 32 ≤ c.toNat && c.toNat ≤ 126 then String.singleton c
  else if c.toNat < 65536 then uEscape c.toNat
  else uEscape (55296 + (c.toNat - 65536) / 1024) ++ uEscape (56320 + (c.toNat - 65536) % 1024)

def jsonString (s : String) : String :=
  "\"" ++ String.join (s.data.map escChar) ++ "\""

def renderJVal : JVal → String
  | .s v => jsonString v
  | .i v => toString v
  | .b v => if v then "true" else "false"

/-- Code-point lexicographic order on char lists (Python string `<`). -/
def charListLt : List Char → List Char → Bool
  | [], [] => false
  | [], _ :: _ => true
  | _ :: _, [] => false
  | a :: as, b :: bs =>
    if a.toNat < b.toNat then true
    else if b.toNat < a.toNat then false
    else charListLt as bs

/-- Python string comparison `a < b` (code-point lexicographic). -/
def strLtB (a b : String) : Bool := charListLt a.data b.data

/-- `sorted(d.items())` by key, as performed by `json.dumps(..., sort_keys=True)`. -/
def sortPairs (p : Payload) : Payload :=
  p.insertionSort (fun a b => strLtB b.1 a.1 = false)

/-- `_canonical_payload`: `json.dumps(payload, sort_keys=True, separators=(",", ":"))`. -/
def _canonical_payload (p : Payload) : String :=
  "\x7b" ++ String.intercalate "," ((sortPairs p).map
    (fun kv => jsonString kv.1 ++ ":" ++ renderJVal kv.2)) ++ "\x7d"

/-- `json.dumps(payload, sort_keys=True)` with default separators, used by `log_audit`. -/
def auditDumps (p : Payload) : String :=
  "\x7b" ++ String.intercalate ", " ((sortPairs p).map
    (fun kv => jsonString kv.1 ++ ": " ++ renderJVal kv.2)) ++ "\x7d"

/-! ### Database rows and state -/

structure StoreRow where
  store_id : String
  store_name : String
  city : String
  state : String
  region : String
  latitude : ℚ
  longitude : ℚ
deriving DecidableEq, Repr

structure InvRow where
  store_id : String
  sku : String
  on_hand : Int
  reserved : Int
  reorder_point : Int
  last_updated : String
deriving DecidableEq, Repr

structure TokenRow where
  token : String
  action : String
  payload_json : String
  expires_at : Nat
  used : Nat
deriving DecidableEq, Repr

structure AuditRow where
  id : Nat
  action : String
  role : String
  payload_json : String
  created_at : String
deriving DecidableEq, Repr

structure TransferRow where
  transfer_id : Nat
  from_store : String
  to_store : String
  sku : String
  qty : Int
  status : String
  created_at : String
  created_by_role : String
deriving DecidableEq, Repr

structure InboundRow where
  inbound_id : Nat
  transfer_id : Nat
  store_id : String
  sku : String
  qty : Int
  expected_date : Nat
  status : String
deriving DecidableEq, Repr

structure TicketRow where
  ticket_id : String
  opened_date : Nat
  store_id : String
  category : String
  summary : String
  severity : String
  status : String
  channel : String
  description : String
deriving DecidableEq, Repr

structure DB where
  stores : List StoreRow
  inventory : List InvRow
  confirm_tokens : List TokenRow
  transfers : List TransferRow
  inbound_transfers : List InboundRow
  audit_log : List AuditRow
  tickets : List TicketRow
deriving DecidableEq, Repr

/-- `.date()` of a `Nat`-seconds instant: whole days since the epoch. -/
def dateOf (now : Nat) : Nat := now / 86400

/-! ### ConfirmationLedger operations -/

/-- Key predicate for the `confirm_tokens` primary-key lookup. -/
def tokenKey (tok : String) : TokenRow → Bool := fun r => r.token == tok

/-- `issue_confirmation_token`: INSERT an unused token with
`expires_at = now + ttl`; the fresh random token is a parameter. -/
def issue_confirmation_token (db : DB) (freshToken action : String) (payload : Payload)
    (ttl now : Nat) : (String × Nat) × DB :=
  ((freshToken, now + ttl),
    { db with confirm_tokens := db.confirm_tokens ++
        [⟨freshToken, action, _canonical_payload payload, now + ttl, 0⟩] })

/-- `UPDATE confirm_tokens SET used = 1 WHERE token = ?`. -/
def markUsed (tokens : List TokenRow) (tok : String) : List TokenRow :=
  tokens.map (fun r => if tokenKey tok r then { r with used := 1 } else r)

/-- `validate_confirmation_token`: look the token up; fail (without writing)
if absent, used, action mismatch, payload mismatch, or `now` past expiry;
otherwise set `used = 1` and succeed. -/
def validate_confirmation_token (db : DB) (tok action : String) (payload : Payload)
    (now : Nat) : Bool × DB :=
  match db.confirm_tokens.find? (tokenKey tok) with
  | none => (false, db)
  | some row =>
    if row.used = 1 then (false, db)
    else if row.action ≠ action then (false, db)
    else if row.payload_json ≠ _canonical_payload payload then (false, db)
    else if row.expires_at < now then (false, db)
    else (true, { db with confirm_tokens := markUsed db.confirm_tokens tok })

/-! ### AuditLog -/

def nextAuditId (db : DB) : Nat :=
  db.audit_log.foldl (fun m a => max m a.id) 0 + 1

/-- `log_audit`: append one audit row. -/
def log_audit (db : DB) (action role : String) (payload : Payload) (nowIso : String) : DB :=
  { db with audit_log := db.audit_log ++
      [⟨nextAuditId db, action, role, auditDumps payload, nowIso⟩] }

/-! ### Reserve endpoint (`POST /reserve`) -/

/-- Key predicate for the `inventory` primary-key lookup. -/
def invKey (store_id sku : String) : InvRow → Bool :=
  fun r => r.store_id == store_id && r.sku == sku

structure ReserveReq where
  sku : String
  store_id : String
  qty : Int
  confirm : Bool
  confirm_token : Option String
deriving DecidableEq, Repr

inductive ReserveResp where
  /-- 202 preview body. -/
  | preview (confirm_token : String) (expires_at : Nat) (can_reserve : Bool)
      (current_on_hand current_reserved preview_on_hand_after preview_reserved_after : Int)
  /-- 200 applied body, echoing the refetched inventory row. -/
  | reserved (store_id sku : String) (qty on_hand reserved : Int) (last_updated : String)
deriving DecidableEq, Repr

def reservePayload (req : ReserveReq) : Payload :=
  [("sku", .s req.sku), ("store_id", .s req.store_id), ("qty", .i req.qty)]

/-- The per-row effect of the reserve `UPDATE` statement. -/
def reserveUpd (req : ReserveReq) (nowIso : String) (r : InvRow) : InvRow :=
  { r with on_hand := r.on_hand - req.qty, reserved := r.reserved + req.qty,
           last_updated := nowIso }

/-- Shared tail of `reserve_inventory` after the confirm/token gate:
conflict check, UPDATE, refetch, audit. -/
def reserveApply (db : DB) (req : ReserveReq) (role nowIso : String) (on_hand : Int) :
    Except Nat (ReserveResp × DB) :=
  if on_hand < req.qty then .error 409
  else
    let inv1 := db.inventory.map (fun r =>
      if invKey req.store_id req.sku r then reserveUpd req nowIso r else r)
    match inv1.find? (invKey req.store_id req.sku) with
    | none => .error 500
    | some updated =>
      let db2 := log_audit { db with inventory := inv1 } "reserve" role
        (reservePayload req ++ [("confirmed", .b true)]) nowIso
      .ok (.reserved req.store_id req.sku req.qty updated.on_hand updated.reserved
            updated.last_updated, db2)

/-- Body of the `with conn` block of `reserve_inventory`; `.error` means an
`HTTPException` escaped (rolling the transaction back). -/
def reserveBody (db : DB) (req : ReserveReq) (role : String) (now : Nat)
    (nowIso freshToken : String) (ttl : Nat) : Except Nat (ReserveResp × DB) :=
  match db.inventory.find? (invKey req.store_id req.sku) with
  | none => .error 404
  | some row =>
    let on_hand := row.on_hand
    let rsv := row.reserved
    if req.confirm = false then
      match req.confirm_token with
      | some tok =>
        let res := validate_confirmation_token db tok "reserve" (reservePayload req) now
        if res.1 = false then .error 400
        else reserveApply res.2 req role nowIso on_hand
      | none =>
        let issued := issue_confirmation_token db freshToken "reserve" (reservePayload req) ttl now
        .ok (.preview issued.1.1 issued.1.2 (decide (req.qty ≤ on_hand)) on_hand rsv
              (on_hand - req.qty) (rsv + req.qty), issued.2)
    else reserveApply db req role nowIso on_hand

/-- `reserve_inventory` endpoint: pydantic `qty > 0` validation, then the
transaction body with commit-on-success / rollback-on-exception. -/
def reserve_inventory (db : DB) (req : ReserveReq) (role : String) (now : Nat)
    (nowIso freshToken : String) (ttl : Nat) : Except Nat ReserveResp × DB :=
  if req.qty ≤ 0 then (.error 422, db)
  else
    match reserveBody db req role now nowIso freshToken ttl with
    | .ok (r, db1) => (.ok r, db1)
    | .error e => (.error e, db)

/-! ### Transfer endpoint (`POST /transfer`) -/

structure TransferReq where
  from_store : String
  to_store : String
  sku : String
  qty : Int
  confirm : Bool
  confirm_token : Option String
deriving DecidableEq, Repr

inductive TransferResp where
  | preview (confirm_token : String) (expires_at : Nat) (can_transfer : Bool)
      (source_on_hand : Int) (note : String)
  | created (transfer_id : Nat) (from_store to_store sku : String) (qty : Int)
      (inbound_status : String) (expected_date : Nat)
deriving DecidableEq, Repr

def transferPayload (req : TransferReq) : Payload :=
  [("from_store", .s req.from_store), ("to_store", .s req.to_store),
   ("sku", .s req.sku), ("qty", .i req.qty)]

/-- SQLite AUTOINCREMENT for `transfers.transfer_id`. -/
def nextTransferId (db : DB) : Nat :=
  db.transfers.foldl (fun m t => max m t.transfer_id) 0 + 1

/-- SQLite AUTOINCREMENT for `inbound_transfers.inbound_id`. -/
def nextInboundId (db : DB) : Nat :=
  db.inbound_transfers.foldl (fun m t => max m t.inbound_id) 0 + 1

/-- The state built by an applied transfer: INSERT the `pending` transfer,
INSERT the `inbound_pending` expectation (expected two days out), append the
audit row. -/
def transferPost (db : DB) (req : TransferReq) (role : String) (now : Nat)
    (nowIso : String) : DB :=
  let expected := dateOf (now + 2 * 86400)
  let tid := nextTransferId db
  let trow : TransferRow :=
    ⟨tid, req.from_store, req.to_store, req.sku, req.qty, "pending", nowIso, role⟩
  let db1 := { db with transfers := db.transfers ++ [trow] }
  let irow : InboundRow :=
    ⟨nextInboundId db1, tid, req.to_store, req.sku, req.qty, expected, "inbound_pending"⟩
  let db2 := { db1 with inbound_transfers := db1.inbound_transfers ++ [irow] }
  log_audit db2 "transfer" role (transferPayload req ++ [("confirmed", .b true)]) nowIso

/-- Shared tail of `create_transfer` after the confirm/token gate. -/
def transferApply (db : DB) (req : TransferReq) (role : String) (now : Nat)
    (nowIso : String) (source_on_hand : Int) : Except Nat (TransferResp × DB) :=
  if source_on_hand < req.qty then .error 409
  else
    .ok (.created (nextTransferId db) req.from_store req.to_store req.sku req.qty
          "inbound_pending" (dateOf (now + 2 * 86400)),
         transferPost db req role now nowIso)

/-- Body of the `with conn` block of `create_transfer`. -/
def transferBody (db : DB) (req : TransferReq) (role : String) (now : Nat)
    (nowIso freshToken : String) (ttl : Nat) : Except Nat (TransferResp × DB) :=
  match db.inventory.find? (invKey req.from_store req.sku),
        db.inventory.find? (invKey req.to_store req.sku) with
  | none, _ => .error 404
  | some _, none => .error 404
  | some source_row, some _ =>
    let source_on_hand := source_row.on_hand
    if req.confirm = false then
      match req.confirm_token with
      | some tok =>
        let res := validate_confirmation_token db tok "transfer" (transferPayload req) now
        if res.1 = false then .error 400
        else transferApply res.2 req role now nowIso source_on_hand
      | none =>
        let issued := issue_confirmation_token db freshToken "transfer" (transferPayload req) ttl now
        .ok (.preview issued.1.1 issued.1.2 (decide (req.qty ≤ source_on_hand)) source_on_hand
              "Transfer creates inbound record; source on_hand remains unchanged immediately.",
             issued.2)
    else transferApply db req role now nowIso source_on_hand

/-- `create_transfer` endpoint: pydantic `qty > 0`, merch-only role check,
`from_store != to_store`, then the transaction body. -/
def create_transfer (db : DB) (req : TransferReq) (role : String) (now : Nat)
    (nowIso freshToken : String) (ttl : Nat) : Except Nat TransferResp × DB :=
  if req.qty ≤ 0 then (.error 422, db)
  else if role ≠ "merch" then (.error 403, db)
  else if req.from_store = req.to_store then (.error 400, db)
  else
    match transferBody db req role now nowIso freshToken ttl with
    | .ok (r, db1) => (.ok r, db1)
    | .error e => (.error e, db)

/-! ### Ticket endpoint (`POST /tickets`) -/

def digitChar : Nat → Char
  | 0 => '0' | 1 => '1' | 2 => '2' | 3 => '3' | 4 => '4'
  | 5 => '5' | 6 => '6' | 7 => '7' | 8 => '8' | _ => '9'

def isDig (c : Char) : Bool := 48 ≤ c.toNat && c.toNat ≤ 57

def digVal (c : Char) : Nat := c.toNat - 48

/-- Decimal digits of a natural number, most significant first. -/
def natToDigits (n : Nat) : List Char :=
  if _h : n < 10 then [digitChar n]
  else natToDigits (n / 10) ++ [digitChar (n % 10)]
termination_by n
decreasing_by exact Nat.div_lt_self (by omega) (by omega)

/-- Longest decimal-digit prefix, folded left into the accumulator. -/
def parseDigitsAcc (acc : Nat) : List Char → Nat
  | [] => acc
  | c :: cs => if isDig c then parseDigitsAcc (10 * acc + digVal c) cs else acc

/-- SQLite `CAST(s AS INTEGER)`: skip leading whitespace, optional sign,
then the longest digit prefix (0 when there is none). -/
def castIntChars : List Char → Int
  | [] => 0
  | c :: cs =>
    if c = ' ' || c = '\t' || c = '\n' || c = '\r' then castIntChars cs
    else if c = '-' then -(parseDigitsAcc 0 cs : Int)
    else if c = '+' then (parseDigitsAcc 0 cs : Int)
    else (parseDigitsAcc 0 (c :: cs) : Int)

/-- `CAST(SUBSTR(ticket_id, 5) AS INTEGER)`: the numeric suffix after the
4-character prefix. -/
def ticketSuffix (t : TicketRow) : Int :=
  castIntChars (t.ticket_id.data.drop 4)

/-- `COALESCE(MAX(CAST(SUBSTR(ticket_id, 5) AS INTEGER)), 0)`. -/
def maxTicketSuffix (ts : List TicketRow) : Int :=
  match ts with
  | [] => 0
  | t :: rest => rest.foldl (fun m x => max m (ticketSuffix x)) (ticketSuffix t)

/-- Left-pad a digit list with zeros to the given width. -/
def padZeros (w : Nat) (l : List Char) : List Char :=
  List.replicate (w - l.length) '0' ++ l

/-- Python `f-string` formatting with spec `04d`. -/
def int04 (n : Int) : String :=
  if n < 0 then "-" ++ String.mk (padZeros 3 (natToDigits (-n).toNat))
  else String.mk (padZeros 4 (natToDigits n.toNat))

structure TicketResp where
  ticket_id : String
  opened_date : Nat
  store_id : String
  category : String
  severity : String
  status : String
deriving DecidableEq, Repr

def storeKey (store_id : String) : StoreRow → Bool := fun s => s.store_id == store_id

/-- Body of the `with conn` block of `create_ticket`. -/
def ticketBody (db : DB) (store_id category severity description role : String)
    (now : Nat) (nowIso : String) : Except Nat (TicketResp × DB) :=
  match db.stores.find? (storeKey store_id) with
  | none => .error 404
  | some _ =>
    let next_id := maxTicketSuffix db.tickets + 1
    let ticket_id := "TCKT" ++ int04 next_id
    let opened_date := dateOf now
    let summary := description.take 80
    let trow : TicketRow :=
      ⟨ticket_id, opened_date, store_id, category, summary, severity, "open", "api", description⟩
    let db1 := { db with tickets := db.tickets ++ [trow] }
    let db2 := log_audit db1 "create_ticket" role
      [("ticket_id", .s ticket_id), ("store_id", .s store_id),
       ("category", .s category), ("severity", .s severity)] nowIso
    .ok (⟨ticket_id, opened_date, store_id, category, severity, "open"⟩, db2)

/-- `create_ticket` endpoint: pydantic `min_length=1` on the description,
then the transaction body. -/
def create_ticket (db : DB) (store_id category severity description role : String)
    (now : Nat) (nowIso : String) : Except Nat TicketResp × DB :=
  if description = "" then (.error 422, db)
  else
    match ticketBody db store_id category severity description role now nowIso with
    | .ok (r, db1) => (.ok r, db1)
    | .error e => (.error e, db)

/-! ### Inventory lookup (`GET /inventory/lookup`) -/

/-- Round half to even on ℚ, modelling Python `round` on an exact value. -/
def roundHalfEven (q : ℚ) : ℤ :=
  if q - ⌊q⌋ = 1 / 2 then (if ⌊q⌋ % 2 = 0 then ⌊q⌋ else ⌊q⌋ + 1) else round q

/-- `round(x, 2)`. -/
def roundQ2 (q : ℚ) : ℚ := (roundHalfEven (q * 100) : ℚ) / 100

structure NearbyEntry where
  store_id : String
  store_name : String
  city : String
  state : String
  distance_miles : ℚ
  on_hand : Int
  reserved : Int
  available : Int
  last_updated : String
deriving DecidableEq, Repr

structure LookupResp where
  sku : String
  query_store_id : String
  radius_miles : ℚ
  stores : List NearbyEntry
deriving DecidableEq, Repr

/-- The `inventory JOIN stores WHERE i.sku = ?` result, in inventory row order. -/
def joinRows (db : DB) (sku : String) : List (StoreRow × InvRow) :=
  db.inventory.filterMap (fun i =>
    if i.sku == sku then (db.stores.find? (storeKey i.store_id)).map (fun s => (s, i))
    else none)

/-- The `nearby` list before sorting: radius filter on the raw distance,
entry annotated with the rounded distance. -/
def nearbyEntries (rows : List (StoreRow × InvRow)) (base : StoreRow) (radius : ℚ)
    (hv : ℚ → ℚ → ℚ → ℚ → ℚ) : List NearbyEntry :=
  rows.filterMap (fun p =>
    let d := hv base.latitude base.longitude p.1.latitude p.1.longitude
    if d ≤ radius then
      some ⟨p.1.store_id, p.1.store_name, p.1.city, p.1.state, roundQ2 d,
            p.2.on_hand, p.2.reserved, p.2.on_hand - p.2.reserved, p.2.last_updated⟩
    else none)

/-- `nearby.sort(key=lambda item: item["distance_miles"])`: a stable sort by
the rounded distance alone. -/
def sortNearby (l : List NearbyEntry) : List NearbyEntry :=
  l.insertionSort (fun a b => a.distance_miles ≤ b.distance_miles)

/-- `inventory_lookup` endpoint (read-only).  The haversine distance over
IEEE doubles is not shallow-embeddable; the distance function `hv` (the role
of `haversine_miles`) is an explicit parameter over exact rationals. -/
def inventory_lookup (db : DB) (sku store_id : String) (radius : ℚ)
    (hv : ℚ → ℚ → ℚ → ℚ → ℚ) : Except Nat LookupResp :=
  match db.stores.find? (storeKey store_id) with
  | none => .error 404
  | some base =>
    let rows := joinRows db sku
    if rows.isEmpty then .error 404
    else .ok ⟨sku, store_id, radius, sortNearby (nearbyEntries rows base radius hv)⟩

/-! ### Action gateway (`services/retail_mcp/app/logic.py`) -/

def VALID_ROLES : List String := ["associate", "merch", "support"]

def MIN_QTY : Int := 1

def MAX_QTY : Int := 20

/-- Python `str.strip()` whitespace test (ASCII whitespace suffices here). -/
def pyIsSpace (c : Char) : Bool :=
  c = ' ' || c = '\t' || c = '\n' || c = '\r' || c.toNat = 11 || c.toNat = 12

/-- Python `str.strip()`. -/
def pyStrip (s : String) : String :=
  String.mk (((s.data.dropWhile pyIsSpace).reverse.dropWhile pyIsSpace).reverse)

/-- Python `str.lower()` (ASCII). -/
def pyLower (s : String) : String := String.mk (s.data.map Char.toLower)

/-- `_validate_role`: normalize with `lower().strip()` and require membership
in `VALID_ROLES`; `none` models the raised `ValueError`. -/
def _validate_role (role : String) : Option String :=
  let normalized := pyStrip (pyLower role)
  if VALID_ROLES.contains normalized then some normalized else none

inductive GatewayErr where
  /-- A `ValueError` raised by gateway validation, before any HTTP call. -/
  | validation
  /-- A non-2xx upstream response surfaced as `RuntimeError`. -/
  | upstream (code : Nat)
deriving DecidableEq, Repr

/-- `reserve_item_action`: role/SKU/qty validation, then `POST /reserve`
(with no `confirm_token`; the tool only ever passes `confirm`). -/
def reserve_item_action (skus : List String) (db : DB) (role sku store_id : String)
    (qty : Int) (confirm : Bool) (now : Nat) (nowIso freshToken : String) (ttl : Nat) :
    Except GatewayErr ReserveResp × DB :=
  match _validate_role role with
  | none => (.error .validation, db)
  | some nrole =>
    if sku ∉ skus then (.error .validation, db)
    else if qty < MIN_QTY ∨ MAX_QTY < qty then (.error .validation, db)
    else
      match reserve_inventory db ⟨sku, store_id, qty, confirm, none⟩ nrole now nowIso freshToken ttl with
      | (.ok r, db1) => (.ok r, db1)
      | (.error e, db1) => (.error (.upstream e), db1)

/-- `create_transfer_action`: role validation, merch-only check, SKU and qty
validation, then `POST /transfer`. -/
def create_transfer_action (skus : List String) (db : DB) (role from_store to_store sku : String)
    (qty : Int) (confirm : Bool) (now : Nat) (nowIso freshToken : String) (ttl : Nat) :
    Except GatewayErr TransferResp × DB :=
  match _validate_role role with
  | none => (.error .validation, db)
  | some nrole =>
    if nrole ≠ "merch" then (.error .validation, db)
    else if sku ∉ skus then (.error .validation, db)
    else if qty < MIN_QTY ∨ MAX_QTY < qty then (.error .validation, db)
    else
      match create_transfer db ⟨from_store, to_store, sku, qty, confirm, none⟩ nrole now nowIso freshToken ttl with
      | (.ok r, db1) => (.ok r, db1)
      | (.error e, db1) => (.error (.upstream e), db1)

/-- `create_ticket_action`: role validation and the non-blank description
check, then `POST /tickets`. -/
def create_ticket_action (db : DB) (role store_id category severity description : String)
    (now : Nat) (nowIso : String) : Except GatewayErr TicketResp × DB :=
  match _validate_role role with
  | none => (.error .validation, db)
  | some nrole =>
    if pyStrip description = "" then (.error .validation, db)
    else
      match create_ticket db store_id category severity description nrole now nowIso with
      | (.ok r, db1) => (.ok r, db1)
      | (.error e, db1) => (.error (.upstream e), db1)

/-! ### Concrete fixtures used by witnesses -/

def stW1 : StoreRow := ⟨"ST1", "Alpha", "Austin", "TX", "South", 30, -97⟩

def stW2 : StoreRow := ⟨"ST2", "Beta", "Dallas", "TX", "South", 32, -96⟩

def invW1 : InvRow := ⟨"ST1", "SKU1", 5, 1, 2, "t0"⟩

def invW2 : InvRow := ⟨"ST2", "SKU1", 4, 0, 2, "t0"⟩

def reqW : ReserveReq := ⟨"SKU1", "ST1", 2, false, some "tok1"⟩

def tokRowW : TokenRow := ⟨"tok1", "reserve", _canonical_payload (reservePayload reqW), 1000, 0⟩

def dbW : DB :=
  { stores := [stW1, stW2], inventory := [invW1, invW2], confirm_tokens := [tokRowW],
    transfers := [], inbound_transfers := [], audit_log := [],
    tickets := [⟨"TCKT0007", 1, "ST1", "pos", "s", "low", "open", "api", "d"⟩] }

/-! ### Helper lemmas -/

/-- A keyed `UPDATE` (map guarded by the key predicate) turns the first
`find?` hit into its updated image, provided the update preserves the key. -/
theorem find?_map_keyed_update {α : Type} (l : List α) (p : α → Bool) (upd : α → α)
    (hp : ∀ r, p (upd r) = p r) (row : α) (h : l.find? p = some row) :
    (l.map fun r => if p r then upd r else r).find? p = some (upd row) := by
  induction l with
  | nil => simp at h
  | cons x xs ih =>
    by_cases hx : p x = true
    · rw [List.find?_cons_of_pos _ hx] at h
      injection h with h
      subst h
      simp only [List.map_cons, if_pos hx]
      exact List.find?_cons_of_pos _ (by rw [hp]; exact hx)
    · rw [List.find?_cons_of_neg _ hx] at h
      simp only [List.map_cons, if_neg hx]
      rw [List.find?_cons_of_neg _ hx]
      exact ih h

/-- The Boolean verdict of `validate_confirmation_token` depends on the
state only through the token table. -/
theorem validate_fst_congr (db1 db2 : DB) (tok act : String) (p : Payload) (now : Nat)
    (h : db1.confirm_tokens = db2.confirm_tokens) :
    (validate_confirmation_token db1 tok act p now).1 =
      (validate_confirmation_token db2 tok act p now).1 := by
  unfold validate_confirmation_token
  rw [h]
  cases (db2.confirm_tokens).find? (tokenKey tok) with
  | none => rfl
  | some row =>
    by_cases h1 : row.used = 1 <;> by_cases h2 : row.action ≠ act <;>
      by_cases h3 : row.payload_json ≠ _canonical_payload p <;>
      by_cases h4 : row.expires_at < now <;>
      simp [h1, h2, h3, h4]

/-- C2: redemption succeeds iff the token is present, unused, bound to the
same action and the canonical serialization of the supplied payload, and
unexpired; success marks exactly that token used (so a second redemption of
it fails whatever is supplied), and failure leaves the state untouched. -/
theorem validate_confirmation_token_spec
    (db : DB) (tok act : String) (p : Payload) (now : Nat)
    (hwf : ∀ r ∈ db.confirm_tokens, r.used = 0 ∨ r.used = 1) :
    ((validate_confirmation_token db tok act p now).1 = true ↔
      ∃ row, db.confirm_tokens.find? (tokenKey tok) = some row ∧ row.used = 0 ∧
        row.action = act ∧ row.payload_json = _canonical_payload p ∧ now ≤ row.expires_at)
    ∧ ((validate_confirmation_token db tok act p now).1 = true →
        (validate_confirmation_token db tok act p now).2 =
          { db with confirm_tokens := markUsed db.confirm_tokens tok } ∧
        ∀ act2 p2 now2,
          (validate_confirmation_token
            (validate_confirmation_token db tok act p now).2 tok act2 p2 now2).1 = false)
    ∧ ((validate_confirmation_token db tok act p now).1 = false →
        (validate_confirmation_token db tok act p now).2 = db) := by
  cases hfind : db.confirm_tokens.find? (tokenKey tok) with
  | none =>
    have hres : validate_confirmation_token db tok act p now = (false, db) := by
      simp only [validate_confirmation_token, hfind]
    refine ⟨?_, ?_, ?_⟩
    · rw [hres]
      constructor
      · intro h; exact absurd h Bool.false_ne_true
      · rintro ⟨r, hr, -, -, -, -⟩
        exact Option.noConfusion hr
    · intro h; rw [hres] at h; exact absurd h Bool.false_ne_true
    · intro _; rw [hres]
  | some row =>
    have hmem : row ∈ db.confirm_tokens := List.mem_of_find?_eq_some hfind
    by_cases h1 : row.used = 1
    · have hres : validate_confirmation_token db tok act p now = (false, db) := by
        simp only [validate_confirmation_token, hfind, if_pos h1]
      refine ⟨?_, ?_, ?_⟩
      · rw [hres]
        constructor
        · intro h; exact absurd h Bool.false_ne_true
        · rintro ⟨r, hr, hu, -, -, -⟩
          injection hr with hr; subst hr; omega
      · intro h; rw [hres] at h; exact absurd h Bool.false_ne_true
      · intro _; rw [hres]
    · have h1' : row.used = 0 := by
        rcases hwf row hmem with h | h
        · exact h
        · exact absurd h h1
      by_cases h2 : row.action ≠ act
      · have hres : validate_confirmation_token db tok act p now = (false, db) := by
          simp only [validate_confirmation_token, hfind, if_neg h1, if_pos h2]
        refine ⟨?_, ?_, ?_⟩
        · rw [hres]
          constructor
          · intro h; exact absurd h Bool.false_ne_true
          · rintro ⟨r, hr, -, ha, -, -⟩
            injection hr with hr; subst hr; exact absurd ha h2
        · intro h; rw [hres] at h; exact absurd h Bool.false_ne_true
        · intro _; rw [hres]
      · by_cases h3 : row.payload_json ≠ _canonical_payload p
        · have hres : validate_confirmation_token db tok act p now = (false, db) := by
            simp only [validate_confirmation_token, hfind, if_neg h1, if_neg h2, if_pos h3]
          refine ⟨?_, ?_, ?_⟩
          · rw [hres]
            constructor
            · intro h; exact absurd h Bool.false_ne_true
            · rintro ⟨r, hr, -, -, hp', -⟩
              injection hr with hr; subst hr; exact absurd hp' h3
          · intro h; rw [hres] at h; exact absurd h Bool.false_ne_true
          · intro _; rw [hres]
        · by_cases h4 : row.expires_at < now
          · have hres : validate_confirmation_token db tok act p now = (false, db) := by
              simp only [validate_confirmation_token, hfind, if_neg h1, if_neg h2, if_neg h3,
                if_pos h4]
            refine ⟨?_, ?_, ?_⟩
            · rw [hres]
              constructor
              · intro h; exact absurd h Bool.false_ne_true
              · rintro ⟨r, hr, -, -, -, he⟩
                injection hr with hr; subst hr; omega
            · intro h; rw [hres] at h; exact absurd h Bool.false_ne_true
            · intro _; rw [hres]
          · have hres : validate_confirmation_token db tok act p now =
                (true, { db with confirm_tokens := markUsed db.confirm_tokens tok }) := by
              simp only [validate_confirmation_token, hfind, if_neg h1, if_neg h2, if_neg h3,
                if_neg h4]
            refine ⟨?_, ?_, ?_⟩
            · rw [hres]
              constructor
              · intro _
                exact ⟨row, rfl, h1', not_not.mp h2, not_not.mp h3, by omega⟩
              · intro _; rfl
            · intro _
              refine ⟨by rw [hres], ?_⟩
              intro act2 p2 now2
              have hfind2 : List.find? (tokenKey tok)
                  ({ db with confirm_tokens := markUsed db.confirm_tokens tok } : DB).confirm_tokens =
                  some { row with used := 1 } :=
                find?_map_keyed_update db.confirm_tokens (tokenKey tok)
                  (fun r => { r with used := 1 }) (fun _ => rfl) row hfind
              rw [hres]
              simp [validate_confirmation_token, hfind2]
            · intro h; rw [hres] at h; simp at h

/-- Witness for C2 at a concrete ledger: the stored token redeems, and after
redemption a second attempt fails. -/
theorem validate_confirmation_token_spec_witness :
    (validate_confirmation_token dbW "tok1" "reserve" (reservePayload reqW) 900).1 = true ∧
    (validate_confirmation_token
      (validate_confirmation_token dbW "tok1" "reserve" (reservePayload reqW) 900).2
      "tok1" "reserve" (reservePayload reqW) 900).1 = false := by
  have h := validate_confirmation_token_spec dbW "tok1" "reserve" (reservePayload reqW) 900
    (by decide)
  have h1 : (validate_confirmation_token dbW "tok1" "reserve" (reservePayload reqW) 900).1 =
      true := by
    exact h.1.mpr ⟨tokRowW, by decide, by decide, by decide, by decide, by decide⟩
  exact ⟨h1, (h.2.1 h1).2 "reserve" (reservePayload reqW) 900⟩

/-- `validate_confirmation_token` writes at most the token table: the
post-state agrees with the pre-state on every other table. -/
theorem validate_frame (db : DB) (tok act : String) (p : Payload) (now : Nat) :
    ∃ ct, (validate_confirmation_token db tok act p now).2 =
      { db with confirm_tokens := ct } := by
  cases hfind : db.confirm_tokens.find? (tokenKey tok) with
  | none =>
    simp only [validate_confirmation_token, hfind]
    exact ⟨db.confirm_tokens, rfl⟩
  | some row =>
    simp only [validate_confirmation_token, hfind]
    by_cases h1 : row.used = 1
    · rw [if_pos h1]; exact ⟨db.confirm_tokens, rfl⟩
    · rw [if_neg h1]
      by_cases h2 : row.action ≠ act
      · rw [if_pos h2]; exact ⟨db.confirm_tokens, rfl⟩
      · rw [if_neg h2]
        by_cases h3 : row.payload_json ≠ _canonical_payload p
        · rw [if_pos h3]; exact ⟨db.confirm_tokens, rfl⟩
        · rw [if_neg h3]
          by_cases h4 : row.expires_at < now
          · rw [if_pos h4]; exact ⟨db.confirm_tokens, rfl⟩
          · rw [if_neg h4]; exact ⟨markUsed db.confirm_tokens tok, rfl⟩

/-- Evaluation of `reserveApply` when the feasibility check passes. -/
theorem reserveApply_spec (db : DB) (req : ReserveReq) (role nowIso : String) (row : InvRow)
    (hrow : db.inventory.find? (invKey req.store_id req.sku) = some row)
    (hle : req.qty ≤ row.on_hand) :
    reserveApply db req role nowIso row.on_hand = .ok
      (.reserved req.store_id req.sku req.qty (row.on_hand - req.qty) (row.reserved + req.qty)
        nowIso,
       log_audit { db with inventory := db.inventory.map (fun r =>
           if invKey req.store_id req.sku r then reserveUpd req nowIso r else r) }
         "reserve" role (reservePayload req ++ [("confirmed", JVal.b true)]) nowIso) := by
  have hcond : ¬ row.on_hand < req.qty := by omega
  have hfind1 := find?_map_keyed_update db.inventory (invKey req.store_id req.sku)
    (reserveUpd req nowIso) (fun _ => rfl) row hrow
  simp only [reserveApply, if_neg hcond, hfind1]
  rfl

/-- C1: an applied reserve (explicit confirm or successfully redeemed token)
with `qty ≤ on_hand` debits `on_hand` and credits `reserved` by `qty`,
preserving their sum, and the response carries the updated record. -/
theorem reserve_inventory_applies (db : DB) (req : ReserveReq) (role : String) (now : Nat)
    (nowIso freshToken : String) (ttl : Nat) (row : InvRow)
    (hrow : db.inventory.find? (invKey req.store_id req.sku) = some row)
    (hq : 0 < req.qty)
    (hle : req.qty ≤ row.on_hand)
    (hmode : req.confirm = true ∨ (req.confirm = false ∧ ∃ t, req.confirm_token = some t ∧
      (validate_confirmation_token db t "reserve" (reservePayload req) now).1 = true)) :
    ∃ db', reserve_inventory db req role now nowIso freshToken ttl =
        (.ok (.reserved req.store_id req.sku req.qty (row.on_hand - req.qty)
          (row.reserved + req.qty) nowIso), db') ∧
      db'.inventory.find? (invKey req.store_id req.sku) = some (reserveUpd req nowIso row) ∧
      (reserveUpd req nowIso row).on_hand = row.on_hand - req.qty ∧
      (reserveUpd req nowIso row).reserved = row.reserved + req.qty ∧
      (row.on_hand - req.qty) + (row.reserved + req.qty) = row.on_hand + row.reserved := by
  have hq0 : ¬ req.qty ≤ 0 := by omega
  rcases hmode with hconf | ⟨hconf, t, htok, hval⟩
  · have hncf : ¬ (req.confirm = false) := by simp [hconf]
    have hbody : reserveBody db req role now nowIso freshToken ttl =
        reserveApply db req role nowIso row.on_hand := by
      simp only [reserveBody, hrow, if_neg hncf]
    have happly := reserveApply_spec db req role nowIso row hrow hle
    refine ⟨log_audit { db with inventory := db.inventory.map (fun r =>
        if invKey req.store_id req.sku r then reserveUpd req nowIso r else r) }
      "reserve" role (reservePayload req ++ [("confirmed", JVal.b true)]) nowIso,
      ?_, ?_, rfl, rfl, by ring⟩
    · simp only [reserve_inventory, if_neg hq0, hbody, happly]
    · exact find?_map_keyed_update db.inventory (invKey req.store_id req.sku)
        (reserveUpd req nowIso) (fun _ => rfl) row hrow
  · obtain ⟨ct, hframe⟩ := validate_frame db t "reserve" (reservePayload req) now
    have hrow2 : (validate_confirmation_token db t "reserve" (reservePayload req) now).2.inventory.find?
        (invKey req.store_id req.sku) = some row := by
      rw [hframe]; exact hrow
    have hnv : ¬ ((validate_confirmation_token db t "reserve" (reservePayload req) now).1 = false) := by
      simp [hval]
    have hbody : reserveBody db req role now nowIso freshToken ttl =
        reserveApply (validate_confirmation_token db t "reserve" (reservePayload req) now).2
          req role nowIso row.on_hand := by
      simp only [reserveBody, hrow, if_pos hconf, htok, if_neg hnv]
    have happly := reserveApply_spec
      (validate_confirmation_token db t "reserve" (reservePayload req) now).2 req role nowIso
      row hrow2 hle
    refine ⟨log_audit { (validate_confirmation_token db t "reserve" (reservePayload req) now).2 with
        inventory := (validate_confirmation_token db t "reserve" (reservePayload req) now).2.inventory.map
          (fun r => if invKey req.store_id req.sku r then reserveUpd req nowIso r else r) }
      "reserve" role (reservePayload req ++ [("confirmed", JVal.b true)]) nowIso,
      ?_, ?_, rfl, rfl, by ring⟩
    · simp only [reserve_inventory, if_neg hq0, hbody, happly]
    · exact find?_map_keyed_update _ (invKey req.store_id req.sku)
        (reserveUpd req nowIso) (fun _ => rfl) row hrow2

/-- Witness for C1: redeeming the previewed token at the fixture applies the
reserve of 2 units against `on_hand = 5`, `reserved = 1`. -/
theorem reserve_inventory_applies_witness :
    ∃ db', reserve_inventory dbW reqW "associate" 900 "t1" "ft" 900 =
        (.ok (.reserved reqW.store_id reqW.sku reqW.qty (invW1.on_hand - reqW.qty)
          (invW1.reserved + reqW.qty) "t1"), db') ∧
      db'.inventory.find? (invKey reqW.store_id reqW.sku) = some (reserveUpd reqW "t1" invW1) ∧
      (reserveUpd reqW "t1" invW1).on_hand = invW1.on_hand - reqW.qty ∧
      (reserveUpd reqW "t1" invW1).reserved = invW1.reserved + reqW.qty ∧
      (invW1.on_hand - reqW.qty) + (invW1.reserved + reqW.qty) = invW1.on_hand + invW1.reserved :=
  reserve_inventory_applies dbW reqW "associate" 900 "t1" "ft" 900 invW1 rfl (by decide)
    (by decide) (Or.inr ⟨rfl, "tok1", rfl, by decide⟩)

/-- Helper: an applied reserve (either confirm mode) with `qty > on_hand`
fails 409 and rolls back to the exact pre-state. -/
theorem reserve_conflict_core (db : DB) (req : ReserveReq) (role : String) (now : Nat)
    (nowIso freshToken : String) (ttl : Nat) (row : InvRow)
    (hrow : db.inventory.find? (invKey req.store_id req.sku) = some row)
    (hq : 0 < req.qty)
    (hcf : row.on_hand < req.qty)
    (hmode : req.confirm = true ∨ (req.confirm = false ∧ ∃ t, req.confirm_token = some t ∧
      (validate_confirmation_token db t "reserve" (reservePayload req) now).1 = true)) :
    reserve_inventory db req role now nowIso freshToken ttl = (.error 409, db) := by
  have hq0 : ¬ req.qty ≤ 0 := by omega
  have happly : ∀ X : DB, reserveApply X req role nowIso row.on_hand = .error 409 := by
    intro X; simp only [reserveApply, if_pos hcf]
  rcases hmode with hconf | ⟨hconf, t, htok, hval⟩
  · have hncf : ¬ (req.confirm = false) := by simp [hconf]
    have hbody : reserveBody db req role now nowIso freshToken ttl = .error 409 := by
      simp only [reserveBody, hrow, if_neg hncf, happly]
    simp only [reserve_inventory, if_neg hq0, hbody]
  · have hnv : ¬ ((validate_confirmation_token db t "reserve" (reservePayload req) now).1 = false) := by
      simp [hval]
    have hbody : reserveBody db req role now nowIso freshToken ttl = .error 409 := by
      simp only [reserveBody, hrow, if_pos hconf, htok, if_neg hnv, happly]
    simp only [reserve_inventory, if_neg hq0, hbody]

/-- C3: an applied reserve (explicit confirm or redeemed token) with
`qty > on_hand` fails with 409 Conflict and the whole state — in particular
the inventory record (`on_hand`, `reserved`, `last_updated`) and the audit
log — is exactly the pre-state. -/
theorem reserve_inventory_conflict (db : DB) (req : ReserveReq) (role : String) (now : Nat)
    (nowIso freshToken : String) (ttl : Nat) (row : InvRow)
    (hrow : db.inventory.find? (invKey req.store_id req.sku) = some row)
    (hq : 0 < req.qty)
    (hcf : row.on_hand < req.qty)
    (hmode : req.confirm = true ∨ (req.confirm = false ∧ ∃ t, req.confirm_token = some t ∧
      (validate_confirmation_token db t "reserve" (reservePayload req) now).1 = true)) :
    reserve_inventory db req role now nowIso freshToken ttl = (.error 409, db) :=
  reserve_conflict_core db req role now nowIso freshToken ttl row hrow hq hcf hmode

/-- Witness for C3: reserving 10 units against `on_hand = 4` with explicit
confirm fails 409 and leaves the fixture state untouched. -/
theorem reserve_inventory_conflict_witness :
    reserve_inventory dbW ⟨"SKU1", "ST2", 10, true, none⟩ "associate" 900 "t1" "ft" 900 =
      (.error 409, dbW) :=
  reserve_inventory_conflict dbW ⟨"SKU1", "ST2", 10, true, none⟩ "associate" 900 "t1" "ft" 900
    invW2 rfl (by decide) (by decide) (Or.inl rfl)

/-- Helper: `transferApply` fails 409 whenever the source is short. -/
theorem transferApply_conflict (X : DB) (req : TransferReq) (role : String) (now : Nat)
    (nowIso : String) (oh : Int) (h : oh < req.qty) :
    transferApply X req role now nowIso oh = .error 409 := by
  simp only [transferApply, if_pos h]

/-- Helper: an applied transfer (either confirm mode) with a short source
fails 409 and rolls back to the exact pre-state. -/
theorem transfer_conflict_core (db : DB) (req : TransferReq) (role : String) (now : Nat)
    (nowIso freshToken : String) (ttl : Nat) (srow trow : InvRow)
    (hsrc : db.inventory.find? (invKey req.from_store req.sku) = some srow)
    (htgt : db.inventory.find? (invKey req.to_store req.sku) = some trow)
    (hq : 0 < req.qty)
    (hcf : srow.on_hand < req.qty)
    (hrole : role = "merch")
    (hne : req.from_store ≠ req.to_store)
    (hmode : req.confirm = true ∨ (req.confirm = false ∧ ∃ t, req.confirm_token = some t ∧
      (validate_confirmation_token db t "transfer" (transferPayload req) now).1 = true)) :
    create_transfer db req role now nowIso freshToken ttl = (.error 409, db) := by
  have hq0 : ¬ req.qty ≤ 0 := by omega
  have happly : ∀ X : DB, transferApply X req role now nowIso srow.on_hand = .error 409 := by
    intro X; simp only [transferApply, if_pos hcf]
  rcases hmode with hconf | ⟨hconf, t, htok, hval⟩
  · have hncf : ¬ (req.confirm = false) := by simp [hconf]
    have hbody : transferBody db req role now nowIso freshToken ttl = .error 409 := by
      simp only [transferBody, hsrc, htgt, if_neg hncf, happly]
    simp only [create_transfer, if_neg hq0, if_neg (not_not_intro hrole), if_neg hne, hbody]
  · have hnv : ¬ ((validate_confirmation_token db t "transfer" (transferPayload req) now).1
        = false) := by
      simp [hval]
    have hbody : transferBody db req role now nowIso freshToken ttl = .error 409 := by
      simp only [transferBody, hsrc, htgt, if_pos hconf, htok, if_neg hnv, happly]
    simp only [create_transfer, if_neg hq0, if_neg (not_not_intro hrole), if_neg hne, hbody]

/-- C4: when a valid, unused, unexpired, payload-matching token is redeemed
inside a reserve or transfer whose guarded mutation then fails (Conflict),
the final state is the exact pre-state — the rollback undoes the
`used = 1` write, so the token's used flag remains 0. -/
theorem token_redemption_rolls_back_on_conflict :
    (∀ (db : DB) (req : ReserveReq) (role : String) (now : Nat) (nowIso freshToken : String)
        (ttl : Nat) (t : String) (row : InvRow),
      req.confirm = false →
      req.confirm_token = some t →
      (validate_confirmation_token db t "reserve" (reservePayload req) now).1 = true →
      db.inventory.find? (invKey req.store_id req.sku) = some row →
      row.on_hand < req.qty → 0 < req.qty →
      reserve_inventory db req role now nowIso freshToken ttl = (.error 409, db)) ∧
    (∀ (db : DB) (req : TransferReq) (role : String) (now : Nat) (nowIso freshToken : String)
        (ttl : Nat) (t : String) (srow trow : InvRow),
      req.confirm = false →
      req.confirm_token = some t →
      (validate_confirmation_token db t "transfer" (transferPayload req) now).1 = true →
      db.inventory.find? (invKey req.from_store req.sku) = some srow →
      db.inventory.find? (invKey req.to_store req.sku) = some trow →
      srow.on_hand < req.qty → 0 < req.qty →
      role = "merch" → req.from_store ≠ req.to_store →
      create_transfer db req role now nowIso freshToken ttl = (.error 409, db)) := by
  constructor
  · intro db req role now nowIso freshToken ttl t row hconf htok hval hrow hcf hq
    exact reserve_conflict_core db req role now nowIso freshToken ttl row hrow hq hcf
      (Or.inr ⟨hconf, t, htok, hval⟩)
  · intro db req role now nowIso freshToken ttl t srow trow hconf htok hval hsrc htgt hcf hq
      hrole hne
    exact transfer_conflict_core db req role now nowIso freshToken ttl srow trow hsrc htgt
      hq hcf hrole hne (Or.inr ⟨hconf, t, htok, hval⟩)

/-! Fixtures for the C4 witness: valid tokens guarding mutations that hit
the Conflict branch. -/

def reqC4R : ReserveReq := ⟨"SKU1", "ST1", 2, false, some "tokR"⟩

def reqC4T : TransferReq := ⟨"ST1", "ST2", "SKU1", 2, false, some "tokT"⟩

def invC4a : InvRow := ⟨"ST1", "SKU1", 1, 0, 2, "t0"⟩

def invC4b : InvRow := ⟨"ST2", "SKU1", 1, 0, 2, "t0"⟩

def dbC4 : DB :=
  { stores := [], inventory := [invC4a, invC4b],
    confirm_tokens :=
      [⟨"tokR", "reserve", _canonical_payload (reservePayload reqC4R), 1000, 0⟩,
       ⟨"tokT", "transfer", _canonical_payload (transferPayload reqC4T), 1000, 0⟩],
    transfers := [], inbound_transfers := [], audit_log := [], tickets := [] }

/-- Witness for C4: both rollbacks at concrete fixtures. -/
theorem token_redemption_rolls_back_on_conflict_witness :
    reserve_inventory dbC4 reqC4R "associate" 900 "t1" "ft" 900 = (.error 409, dbC4) ∧
    create_transfer dbC4 reqC4T "merch" 900 "t1" "ft" 900 = (.error 409, dbC4) :=
  ⟨token_redemption_rolls_back_on_conflict.1 dbC4 reqC4R "associate" 900 "t1" "ft" 900 "tokR"
      invC4a rfl rfl (by decide) rfl (by decide) (by decide),
   token_redemption_rolls_back_on_conflict.2 dbC4 reqC4T "merch" 900 "t1" "ft" 900 "tokT"
      invC4a invC4b rfl rfl (by decide) rfl rfl (by decide) (by decide) rfl (by decide)⟩

/-- Helper: `transferApply` succeeds exactly with the recorded-intent
post-state when the source is sufficient. -/
theorem transferApply_spec (db : DB) (req : TransferReq) (role : String) (now : Nat)
    (nowIso : String) (oh : Int) (hle : req.qty ≤ oh) :
    transferApply db req role now nowIso oh = .ok
      (.created (nextTransferId db) req.from_store req.to_store req.sku req.qty
        "inbound_pending" (dateOf (now + 2 * 86400)),
       transferPost db req role now nowIso) := by
  simp only [transferApply, if_neg (by omega : ¬ oh < req.qty)]

/-- C5: an applied transfer (explicit confirm or redeemed token) with a
sufficient source mutates no InventoryRecord; it creates exactly one
`pending` Transfer row and one `inbound_pending` InboundExpectation at the
destination, dated two days after creation, plus one AuditEntry. -/
theorem create_transfer_records_intent (db : DB) (req : TransferReq) (role : String)
    (now : Nat) (nowIso freshToken : String) (ttl : Nat) (srow trow : InvRow)
    (hsrc : db.inventory.find? (invKey req.from_store req.sku) = some srow)
    (htgt : db.inventory.find? (invKey req.to_store req.sku) = some trow)
    (hq : 0 < req.qty)
    (hle : req.qty ≤ srow.on_hand)
    (hrole : role = "merch")
    (hne : req.from_store ≠ req.to_store)
    (hmode : req.confirm = true ∨ (req.confirm = false ∧ ∃ t, req.confirm_token = some t ∧
      (validate_confirmation_token db t "transfer" (transferPayload req) now).1 = true)) :
    ∃ db', create_transfer db req role now nowIso freshToken ttl =
        (.ok (.created (nextTransferId db) req.from_store req.to_store req.sku req.qty
          "inbound_pending" (dateOf (now + 2 * 86400))), db') ∧
      db'.inventory = db.inventory ∧
      db'.transfers = db.transfers ++
        [⟨nextTransferId db, req.from_store, req.to_store, req.sku, req.qty, "pending",
          nowIso, role⟩] ∧
      db'.inbound_transfers = db.inbound_transfers ++
        [⟨nextInboundId db, nextTransferId db, req.to_store, req.sku, req.qty,
          dateOf (now + 2 * 86400), "inbound_pending"⟩] ∧
      (∃ a, db'.audit_log = db.audit_log ++ [a] ∧ a.action = "transfer") ∧
      db'.tickets = db.tickets ∧ db'.stores = db.stores ∧
      dateOf (now + 2 * 86400) = dateOf now + 2 := by
  have hq0 : ¬ req.qty ≤ 0 := by omega
  have hdate : dateOf (now + 2 * 86400) = dateOf now + 2 := by
    unfold dateOf; omega
  rcases hmode with hconf | ⟨hconf, t, htok, hval⟩
  · have hncf : ¬ (req.confirm = false) := by simp [hconf]
    have hbody : transferBody db req role now nowIso freshToken ttl =
        transferApply db req role now nowIso srow.on_hand := by
      simp only [transferBody, hsrc, htgt, if_neg hncf]
    have happly := transferApply_spec db req role now nowIso srow.on_hand hle
    refine ⟨transferPost db req role now nowIso, ?_, rfl, rfl, rfl, ⟨_, rfl, rfl⟩, rfl, rfl,
      hdate⟩
    simp only [create_transfer, if_neg hq0, if_neg (not_not_intro hrole), if_neg hne, hbody,
      happly]
  · obtain ⟨ct, hframe⟩ := validate_frame db t "transfer" (transferPayload req) now
    have hsrc2 : (validate_confirmation_token db t "transfer" (transferPayload req) now).2.inventory.find?
        (invKey req.from_store req.sku) = some srow := by
      rw [hframe]; exact hsrc
    have hnv : ¬ ((validate_confirmation_token db t "transfer" (transferPayload req) now).1
        = false) := by
      simp [hval]
    have hbody : transferBody db req role now nowIso freshToken ttl =
        transferApply (validate_confirmation_token db t "transfer" (transferPayload req) now).2
          req role now nowIso srow.on_hand := by
      simp only [transferBody, hsrc, htgt, if_pos hconf, htok, if_neg hnv]
    have happly := transferApply_spec
      (validate_confirmation_token db t "transfer" (transferPayload req) now).2
      req role now nowIso srow.on_hand hle
    refine ⟨transferPost (validate_confirmation_token db t "transfer" (transferPayload req) now).2
      req role now nowIso, ?_, ?_, ?_, ?_, ?_, ?_, ?_, hdate⟩
    · simp only [create_transfer, if_neg hq0, if_neg (not_not_intro hrole), if_neg hne, hbody,
        happly]
      rw [hframe]
      rfl
    · rw [hframe]; rfl
    · rw [hframe]; rfl
    · rw [hframe]; rfl
    · rw [hframe]; exact ⟨_, rfl, rfl⟩
    · rw [hframe]; rfl
    · rw [hframe]; rfl

/-- Witness for C5: an explicitly confirmed 2-unit transfer from the fixture
store with `on_hand = 5` records intent without touching inventory. -/
theorem create_transfer_records_intent_witness :
    ∃ db', create_transfer dbW ⟨"ST1", "ST2", "SKU1", 2, true, none⟩ "merch" 900 "t1" "ft" 900 =
        (.ok (.created (nextTransferId dbW) "ST1" "ST2" "SKU1" 2 "inbound_pending"
          (dateOf (900 + 2 * 86400))), db') ∧
      db'.inventory = dbW.inventory ∧
      db'.transfers = dbW.transfers ++
        [⟨nextTransferId dbW, "ST1", "ST2", "SKU1", 2, "pending", "t1", "merch"⟩] ∧
      db'.inbound_transfers = dbW.inbound_transfers ++
        [⟨nextInboundId dbW, nextTransferId dbW, "ST2", "SKU1", 2,
          dateOf (900 + 2 * 86400), "inbound_pending"⟩] ∧
      (∃ a, db'.audit_log = dbW.audit_log ++ [a] ∧ a.action = "transfer") ∧
      db'.tickets = dbW.tickets ∧ db'.stores = dbW.stores ∧
      dateOf (900 + 2 * 86400) = dateOf 900 + 2 :=
  create_transfer_records_intent dbW ⟨"ST1", "ST2", "SKU1", 2, true, none⟩ "merch" 900 "t1"
    "ft" 900 invW1 invW2 rfl rfl (by decide) (by decide) rfl (by decide) (Or.inl rfl)

/-- Helper: a successful `reserveApply` leaves the token table unchanged. -/
theorem reserveApply_ok_tokens (db : DB) (req : ReserveReq) (role nowIso : String) (oh : Int)
    (r : ReserveResp) (db1 : DB)
    (h : reserveApply db req role nowIso oh = .ok (r, db1)) :
    db1.confirm_tokens = db.confirm_tokens := by
  by_cases hcf : oh < req.qty
  · simp only [reserveApply, if_pos hcf] at h
    exact Except.noConfusion h
  · simp only [reserveApply, if_neg hcf] at h
    split at h
    · exact Except.noConfusion h
    · injection h with h
      rw [Prod.ext_iff] at h
      obtain ⟨-, h2⟩ := h
      dsimp only at h2
      rw [← h2]
      rfl

/-- Helper: a successful `transferApply` leaves the token table unchanged. -/
theorem transferApply_ok_tokens (db : DB) (req : TransferReq) (role : String) (now : Nat)
    (nowIso : String) (oh : Int) (r : TransferResp) (db1 : DB)
    (h : transferApply db req role now nowIso oh = .ok (r, db1)) :
    db1.confirm_tokens = db.confirm_tokens := by
  by_cases hcf : oh < req.qty
  · simp only [transferApply, if_pos hcf] at h
    exact Except.noConfusion h
  · simp only [transferApply, if_neg hcf] at h
    injection h with h
    rw [Prod.ext_iff] at h
    obtain ⟨-, h2⟩ := h
    dsimp only at h2
    rw [← h2]
    rfl

/-- Helper: with `confirm = true`, `reserve_inventory` never consults the
confirmation ledger — it validates, looks the row up, and applies. -/
theorem reserve_inventory_confirm_true (db : DB) (req : ReserveReq) (role : String)
    (now : Nat) (nowIso freshToken : String) (ttl : Nat) (hconf : req.confirm = true) :
    reserve_inventory db req role now nowIso freshToken ttl =
      if req.qty ≤ 0 then (.error 422, db)
      else
        match db.inventory.find? (invKey req.store_id req.sku) with
        | none => (.error 404, db)
        | some row =>
          match reserveApply db req role nowIso row.on_hand with
          | .ok (r, db1) => (.ok r, db1)
          | .error e => (.error e, db) := by
  have hncf : ¬ (req.confirm = false) := by simp [hconf]
  by_cases hq : req.qty ≤ 0
  · simp only [reserve_inventory, if_pos hq]
  · cases hrow : db.inventory.find? (invKey req.store_id req.sku) with
    | none =>
      have hbody : reserveBody db req role now nowIso freshToken ttl = .error 404 := by
        simp only [reserveBody, hrow]
      simp only [reserve_inventory, if_neg hq, hbody, hrow]
    | some row =>
      have hbody : reserveBody db req role now nowIso freshToken ttl =
          reserveApply db req role nowIso row.on_hand := by
        simp only [reserveBody, hrow, if_neg hncf]
      simp only [reserve_inventory, if_neg hq, hbody, hrow]

/-- Helper: with `confirm = true`, `create_transfer` never consults the
confirmation ledger. -/
theorem create_transfer_confirm_true (db : DB) (req : TransferReq) (role : String)
    (now : Nat) (nowIso freshToken : String) (ttl : Nat) (hconf : req.confirm = true) :
    create_transfer db req role now nowIso freshToken ttl =
      if req.qty ≤ 0 then (.error 422, db)
      else if role ≠ "merch" then (.error 403, db)
      else if req.from_store = req.to_store then (.error 400, db)
      else
        match db.inventory.find? (invKey req.from_store req.sku),
              db.inventory.find? (invKey req.to_store req.sku) with
        | none, _ => (.error 404, db)
        | some _, none => (.error 404, db)
        | some srow, some _ =>
          match transferApply db req role now nowIso srow.on_hand with
          | .ok (r, db1) => (.ok r, db1)
          | .error e => (.error e, db) := by
  have hncf : ¬ (req.confirm = false) := by simp [hconf]
  by_cases hq : req.qty ≤ 0
  · simp only [create_transfer, if_pos hq]
  · by_cases hr : role ≠ "merch"
    · simp only [create_transfer, if_neg hq, if_pos hr]
    · by_cases hfs : req.from_store = req.to_store
      · simp only [create_transfer, if_neg hq, if_neg hr, if_pos hfs]
      · cases hs : db.inventory.find? (invKey req.from_store req.sku) with
        | none =>
          have hbody : transferBody db req role now nowIso freshToken ttl = .error 404 := by
            simp only [transferBody, hs]
          simp only [create_transfer, if_neg hq, if_neg hr, if_neg hfs, hbody, hs]
        | some srow =>
          cases ht : db.inventory.find? (invKey req.to_store req.sku) with
          | none =>
            have hbody : transferBody db req role now nowIso freshToken ttl = .error 404 := by
              simp only [transferBody, hs, ht]
            simp only [create_transfer, if_neg hq, if_neg hr, if_neg hfs, hbody, hs, ht]
          | some trow =>
            have hbody : transferBody db req role now nowIso freshToken ttl =
                transferApply db req role now nowIso srow.on_hand := by
              simp only [transferBody, hs, ht, if_neg hncf]
            simp only [create_transfer, if_neg hq, if_neg hr, if_neg hfs, hbody, hs, ht]

/-- C10: a reserve or transfer request carrying `confirm = true` never
touches the supplied `confirm_token`: the outcome is identical for every
token value, the token table is unchanged afterwards, and every token
redeems after the request exactly as it would have before. -/
theorem explicit_confirm_ignores_token :
    (∀ (db : DB) (req : ReserveReq) (role : String) (now : Nat) (nowIso freshToken : String)
        (ttl : Nat), req.confirm = true →
      (∀ t, reserve_inventory db { req with confirm_token := t } role now nowIso freshToken ttl =
          reserve_inventory db req role now nowIso freshToken ttl) ∧
      (reserve_inventory db req role now nowIso freshToken ttl).2.confirm_tokens =
        db.confirm_tokens ∧
      (∀ tok a p n,
        (validate_confirmation_token
          (reserve_inventory db req role now nowIso freshToken ttl).2 tok a p n).1 =
        (validate_confirmation_token db tok a p n).1)) ∧
    (∀ (db : DB) (req : TransferReq) (role : String) (now : Nat) (nowIso freshToken : String)
        (ttl : Nat), req.confirm = true →
      (∀ t, create_transfer db { req with confirm_token := t } role now nowIso freshToken ttl =
          create_transfer db req role now nowIso freshToken ttl) ∧
      (create_transfer db req role now nowIso freshToken ttl).2.confirm_tokens =
        db.confirm_tokens ∧
      (∀ tok a p n,
        (validate_confirmation_token
          (create_transfer db req role now nowIso freshToken ttl).2 tok a p n).1 =
        (validate_confirmation_token db tok a p n).1)) := by
  constructor
  · intro db req role now nowIso freshToken ttl hconf
    have hmain := reserve_inventory_confirm_true db req role now nowIso freshToken ttl hconf
    have htoks : (reserve_inventory db req role now nowIso freshToken ttl).2.confirm_tokens =
        db.confirm_tokens := by
      by_cases hq : req.qty ≤ 0
      · simp only [hmain, if_pos hq]
      · cases hrow : db.inventory.find? (invKey req.store_id req.sku) with
        | none => simp only [hmain, if_neg hq, hrow]
        | some row =>
          cases happ : reserveApply db req role nowIso row.on_hand with
          | error e => simp only [hmain, if_neg hq, hrow, happ]
          | ok pr =>
            obtain ⟨r, db1⟩ := pr
            simp only [hmain, if_neg hq, hrow, happ]
            exact reserveApply_ok_tokens db req role nowIso row.on_hand r db1 happ
    refine ⟨?_, htoks, fun tok a p n => validate_fst_congr _ db tok a p n htoks⟩
    intro t
    have hmain2 := reserve_inventory_confirm_true db { req with confirm_token := t } role now
      nowIso freshToken ttl hconf
    rw [hmain, hmain2]
    rfl
  · intro db req role now nowIso freshToken ttl hconf
    have hmain := create_transfer_confirm_true db req role now nowIso freshToken ttl hconf
    have htoks : (create_transfer db req role now nowIso freshToken ttl).2.confirm_tokens =
        db.confirm_tokens := by
      by_cases hq : req.qty ≤ 0
      · simp only [hmain, if_pos hq]
      · by_cases hr : role ≠ "merch"
        · simp only [hmain, if_neg hq, if_pos hr]
        · by_cases hfs : req.from_store = req.to_store
          · simp only [hmain, if_neg hq, if_neg hr, if_pos hfs]
          · cases hs : db.inventory.find? (invKey req.from_store req.sku) with
            | none => simp only [hmain, if_neg hq, if_neg hr, if_neg hfs, hs]
            | some srow =>
              cases ht : db.inventory.find? (invKey req.to_store req.sku) with
              | none => simp only [hmain, if_neg hq, if_neg hr, if_neg hfs, hs, ht]
              | some trow =>
                cases happ : transferApply db req role now nowIso srow.on_hand with
                | error e => simp only [hmain, if_neg hq, if_neg hr, if_neg hfs, hs, ht, happ]
                | ok pr =>
                  obtain ⟨r, db1⟩ := pr
                  simp only [hmain, if_neg hq, if_neg hr, if_neg hfs, hs, ht, happ]
                  exact transferApply_ok_tokens db req role now nowIso srow.on_hand r db1 happ
    refine ⟨?_, htoks, fun tok a p n => validate_fst_congr _ db tok a p n htoks⟩
    intro t
    have hmain2 := create_transfer_confirm_true db { req with confirm_token := t } role now
      nowIso freshToken ttl hconf
    rw [hmain, hmain2]
    rfl

/-- Witness for C10: at the fixture, supplying the live token together with
`confirm = true` produces the same result as supplying none, and the token
table is untouched. -/
theorem explicit_confirm_ignores_token_witness :
    reserve_inventory dbW ⟨"SKU1", "ST1", 2, true, some "tok1"⟩ "associate" 900 "t1" "ft" 900 =
      reserve_inventory dbW ⟨"SKU1", "ST1", 2, true, none⟩ "associate" 900 "t1" "ft" 900 ∧
    (reserve_inventory dbW ⟨"SKU1", "ST1", 2, true, some "tok1"⟩ "associate" 900 "t1" "ft"
      900).2.confirm_tokens = dbW.confirm_tokens ∧
    create_transfer dbW ⟨"ST1", "ST2", "SKU1", 2, true, some "tok1"⟩ "merch" 900 "t1" "ft" 900 =
      create_transfer dbW ⟨"ST1", "ST2", "SKU1", 2, true, none⟩ "merch" 900 "t1" "ft" 900 ∧
    (create_transfer dbW ⟨"ST1", "ST2", "SKU1", 2, true, some "tok1"⟩ "merch" 900 "t1" "ft"
      900).2.confirm_tokens = dbW.confirm_tokens :=
  ⟨(explicit_confirm_ignores_token.1 dbW ⟨"SKU1", "ST1", 2, true, none⟩ "associate" 900 "t1"
      "ft" 900 rfl).1 (some "tok1"),
   (explicit_confirm_ignores_token.1 dbW ⟨"SKU1", "ST1", 2, true, some "tok1"⟩ "associate" 900
      "t1" "ft" 900 rfl).2.1,
   (explicit_confirm_ignores_token.2 dbW ⟨"ST1", "ST2", "SKU1", 2, true, none⟩ "merch" 900 "t1"
      "ft" 900 rfl).1 (some "tok1"),
   (explicit_confirm_ignores_token.2 dbW ⟨"ST1", "ST2", "SKU1", 2, true, some "tok1"⟩ "merch"
      900 "t1" "ft" 900 rfl).2.1⟩

/-! ### Decimal digit round-trip lemmas for ticket-id allocation -/

theorem natToDigits_ne_nil (n : Nat) : natToDigits n ≠ [] := by
  unfold natToDigits
  by_cases h : n < 10
  · rw [dif_pos h]; simp
  · rw [dif_neg h]; simp

theorem isDig_digitChar (d : Nat) : isDig (digitChar d) = true := by
  rcases d with _ | _ | _ | _ | _ | _ | _ | _ | _ | d <;> rfl

theorem digVal_digitChar (d : Nat) (h : d < 10) : digVal (digitChar d) = d := by
  interval_cases d <;> rfl

theorem natToDigits_all_digits (n : Nat) : ∀ c ∈ natToDigits n, isDig c = true := by
  induction n using Nat.strong_induction_on with
  | _ n ih =>
    unfold natToDigits
    by_cases h : n < 10
    · rw [dif_pos h]
      intro c hc
      rw [List.mem_singleton] at hc
      subst hc
      exact isDig_digitChar n
    · rw [dif_neg h]
      intro c hc
      rw [List.mem_append] at hc
      rcases hc with hc | hc
      · exact ih (n / 10) (Nat.div_lt_self (by omega) (by omega)) c hc
      · rw [List.mem_singleton] at hc
        subst hc
        exact isDig_digitChar (n % 10)

theorem parseDigitsAcc_append (l1 l2 : List Char) (h : ∀ c ∈ l1, isDig c = true) :
    ∀ acc, parseDigitsAcc acc (l1 ++ l2) = parseDigitsAcc (parseDigitsAcc acc l1) l2 := by
  induction l1 with
  | nil => intro acc; rfl
  | cons c cs ih =>
    intro acc
    have hc : isDig c = true := h c (List.mem_cons_self c cs)
    simp only [List.cons_append, parseDigitsAcc, if_pos hc]
    exact ih (fun x hx => h x (List.mem_cons_of_mem c hx)) (10 * acc + digVal c)

theorem parseDigitsAcc_natToDigits (n : Nat) :
    ∀ acc, parseDigitsAcc acc (natToDigits n) =
      acc * 10 ^ (natToDigits n).length + n := by
  induction n using Nat.strong_induction_on with
  | _ n ih =>
    intro acc
    by_cases h : n < 10
    · have hd : natToDigits n = [digitChar n] := by unfold natToDigits; rw [dif_pos h]
      rw [hd]
      simp only [parseDigitsAcc, if_pos (isDig_digitChar n), List.length_singleton, pow_one]
      rw [digVal_digitChar n h]
      ring
    · have hd : natToDigits n = natToDigits (n / 10) ++ [digitChar (n % 10)] := by
        conv_lhs => unfold natToDigits
        rw [dif_neg h]
      rw [hd, parseDigitsAcc_append _ _ (natToDigits_all_digits (n / 10)) acc]
      rw [ih (n / 10) (Nat.div_lt_self (by omega) (by omega)) acc]
      simp only [parseDigitsAcc, if_pos (isDig_digitChar (n % 10))]
      rw [digVal_digitChar (n % 10) (Nat.mod_lt n (by omega))]
      rw [List.length_append, List.length_singleton, pow_succ]
      ring_nf
      omega

theorem parse0_natToDigits (n : Nat) : parseDigitsAcc 0 (natToDigits n) = n := by
  rw [parseDigitsAcc_natToDigits n 0]; ring_nf

theorem parse0_zeros_digits (k n : Nat) :
    parseDigitsAcc 0 (List.replicate k '0' ++ natToDigits n) = n := by
  induction k with
  | zero =>
    simp only [List.replicate_zero, List.nil_append]
    exact parse0_natToDigits n
  | succ k ih =>
    rw [List.replicate_succ, List.cons_append]
    have hstep : parseDigitsAcc 0 ('0' :: (List.replicate k '0' ++ natToDigits n)) =
        parseDigitsAcc 0 (List.replicate k '0' ++ natToDigits n) := rfl
    rw [hstep, ih]

theorem castIntChars_digit_head (c : Char) (cs : List Char) (hc : isDig c = true) :
    castIntChars (c :: cs) = (parseDigitsAcc 0 (c :: cs) : Int) := by
  have hn : 48 ≤ c.toNat ∧ c.toNat ≤ 57 := by
    unfold isDig at hc
    rw [Bool.and_eq_true, decide_eq_true_eq, decide_eq_true_eq] at hc
    exact hc
  have h1 : c ≠ ' ' := by rintro rfl; exact absurd hn (by decide)
  have h2 : c ≠ '\t' := by rintro rfl; exact absurd hn (by decide)
  have h3 : c ≠ '\n' := by rintro rfl; exact absurd hn (by decide)
  have h4 : c ≠ '\r' := by rintro rfl; exact absurd hn (by decide)
  have hc1 : ¬ (c = ' ' || c = '\t' || c = '\n' || c = '\r') = true := by
    simp [h1, h2, h3, h4]
  have hc2 : ¬ c = '-' := by rintro rfl; exact absurd hn (by decide)
  have hc3 : ¬ c = '+' := by rintro rfl; exact absurd hn (by decide)
  simp only [castIntChars, if_neg hc1, if_neg hc2, if_neg hc3]

theorem castIntChars_zeros_digits (k n : Nat) :
    castIntChars (List.replicate k '0' ++ natToDigits n) = (n : Int) := by
  obtain ⟨c, cs, heq, hc⟩ : ∃ c cs, List.replicate k '0' ++ natToDigits n = c :: cs ∧
      isDig c = true := by
    cases k with
    | zero =>
      cases hd : natToDigits n with
      | nil => exact absurd hd (natToDigits_ne_nil n)
      | cons c cs =>
        exact ⟨c, cs, by simp only [List.replicate_zero, List.nil_append],
          natToDigits_all_digits n c (by rw [hd]; exact List.mem_cons_self c cs)⟩
    | succ k =>
      exact ⟨'0', List.replicate k '0' ++ natToDigits n,
        by rw [List.replicate_succ, List.cons_append], by decide⟩
  rw [heq, castIntChars_digit_head c cs hc, ← heq, parse0_zeros_digits k n]

/-- The SQLite cast inverts the Python `04d` format. -/
theorem castIntChars_int04 (m : Int) : castIntChars (int04 m).data = m := by
  unfold int04
  by_cases hm : m < 0
  · rw [if_pos hm]
    have hdata : ("-" ++ String.mk (padZeros 3 (natToDigits (-m).toNat))).data =
        '-' :: padZeros 3 (natToDigits (-m).toNat) := rfl
    rw [hdata]
    unfold padZeros
    have hstep : castIntChars ('-' ::
        (List.replicate (3 - (natToDigits (-m).toNat).length) '0' ++ natToDigits (-m).toNat)) =
        -(parseDigitsAcc 0
          (List.replicate (3 - (natToDigits (-m).toNat).length) '0' ++
            natToDigits (-m).toNat) : Int) := rfl
    rw [hstep, parse0_zeros_digits]
    omega
  · rw [if_neg hm]
    have hdata : (String.mk (padZeros 4 (natToDigits m.toNat))).data =
        padZeros 4 (natToDigits m.toNat) := rfl
    rw [hdata]
    unfold padZeros
    rw [castIntChars_zeros_digits]
    omega

theorem le_foldl_max (l : List Int) (a : Int) : a ≤ l.foldl max a := by
  induction l generalizing a with
  | nil => exact le_refl a
  | cons x xs ih => exact le_trans (le_max_left a x) (ih (max a x))

theorem mem_le_foldl_max (l : List Int) (a x : Int) (h : x ∈ l) : x ≤ l.foldl max a := by
  induction l generalizing a with
  | nil => cases h
  | cons y ys ih =>
    rcases List.mem_cons.mp h with rfl | h2
    · exact le_trans (le_max_right a x) (le_foldl_max ys (max a x))
    · exact ih (max a y) h2

/-- Every existing ticket suffix is bounded by the SQL MAX. -/
theorem le_maxTicketSuffix (ts : List TicketRow) (t : TicketRow) (h : t ∈ ts) :
    ticketSuffix t ≤ maxTicketSuffix ts := by
  cases ts with
  | nil => cases h
  | cons x xs =>
    have hfold : maxTicketSuffix (x :: xs) =
        (xs.map ticketSuffix).foldl max (ticketSuffix x) := by
      rw [maxTicketSuffix, List.foldl_map]
    rw [hfold]
    rcases List.mem_cons.mp h with rfl | h2
    · exact le_foldl_max _ _
    · exact mem_le_foldl_max _ _ _ (List.mem_map_of_mem ticketSuffix h2)

/-- Dropping the `TCKT` prefix of an allocated id recovers the formatted
suffix. -/
theorem drop4_TCKT (s : String) : ("TCKT" ++ s).data.drop 4 = s.data := rfl

/-- C7: a successful `create_ticket` allocates the id
`TCKT` + zero-padded (max existing numeric suffix + 1); the new suffix is
strictly greater than every existing suffix, and the new id differs from
every persisted ticket id — so ids are strictly increasing and never
reused, including after a restart from the persisted rows. -/
theorem create_ticket_id_allocation (db : DB)
    (store_id category severity description role : String) (now : Nat) (nowIso : String)
    (st : StoreRow)
    (hstore : db.stores.find? (storeKey store_id) = some st)
    (hdesc : description ≠ "") :
    ∃ resp db', create_ticket db store_id category severity description role now nowIso =
        (.ok resp, db') ∧
      resp.ticket_id = "TCKT" ++ int04 (maxTicketSuffix db.tickets + 1) ∧
      (∀ t ∈ db.tickets, ticketSuffix t < maxTicketSuffix db.tickets + 1) ∧
      (∀ t ∈ db.tickets, t.ticket_id ≠ resp.ticket_id) ∧
      (∃ newRow, db'.tickets = db.tickets ++ [newRow] ∧
        newRow.ticket_id = resp.ticket_id ∧
        ticketSuffix newRow = maxTicketSuffix db.tickets + 1) := by
  have hsuffix : castIntChars
      (("TCKT" ++ int04 (maxTicketSuffix db.tickets + 1)).data.drop 4) =
      maxTicketSuffix db.tickets + 1 := by
    rw [drop4_TCKT, castIntChars_int04]
  have hlt : ∀ t ∈ db.tickets, ticketSuffix t < maxTicketSuffix db.tickets + 1 := by
    intro t ht
    have := le_maxTicketSuffix db.tickets t ht
    omega
  have hne : ∀ t ∈ db.tickets,
      t.ticket_id ≠ "TCKT" ++ int04 (maxTicketSuffix db.tickets + 1) := by
    intro t ht heq
    have h1 : ticketSuffix t = maxTicketSuffix db.tickets + 1 := by
      rw [ticketSuffix, heq, hsuffix]
    have h2 := hlt t ht
    omega
  have hres : create_ticket db store_id category severity description role now nowIso =
      (.ok ⟨"TCKT" ++ int04 (maxTicketSuffix db.tickets + 1), dateOf now, store_id,
          category, severity, "open"⟩,
        log_audit { db with tickets := db.tickets ++
            [⟨"TCKT" ++ int04 (maxTicketSuffix db.tickets + 1), dateOf now, store_id,
              category, description.take 80, severity, "open", "api", description⟩] }
          "create_ticket" role
          [("ticket_id", .s ("TCKT" ++ int04 (maxTicketSuffix db.tickets + 1))),
           ("store_id", .s store_id), ("category", .s category), ("severity", .s severity)]
          nowIso) := by
    simp only [create_ticket, if_neg hdesc, ticketBody, hstore]
  refine ⟨_, _, hres, rfl, hlt, hne, ⟨_, rfl, rfl, ?_⟩⟩
  exact hsuffix

/-- Witness for C7: with the stored `TCKT0007` the next ticket gets id
`TCKT0008`, distinct from and above every existing id. -/
theorem create_ticket_id_allocation_witness :
    ∃ resp db', create_ticket dbW "ST1" "pos" "low" "printer down" "support" 900 "t1" =
        (.ok resp, db') ∧
      resp.ticket_id = "TCKT" ++ int04 (maxTicketSuffix dbW.tickets + 1) ∧
      (∀ t ∈ dbW.tickets, ticketSuffix t < maxTicketSuffix dbW.tickets + 1) ∧
      (∀ t ∈ dbW.tickets, t.ticket_id ≠ resp.ticket_id) ∧
      (∃ newRow, db'.tickets = dbW.tickets ++ [newRow] ∧
        newRow.ticket_id = resp.ticket_id ∧
        ticketSuffix newRow = maxTicketSuffix dbW.tickets + 1) :=
  create_ticket_id_allocation dbW "ST1" "pos" "low" "printer down" "support" 900 "t1" stW1
    rfl (by decide)

/-- C8: the gateway accepts a reserve/transfer quantity only inside
`[MIN_QTY, MAX_QTY] = [1, 20]`; any out-of-range quantity is rejected as a
validation error before any HTTP call, so no token is issued or redeemed
and the state is untouched. -/
theorem qty_guardrail :
    (∀ (skus : List String) (db : DB) (role sku store_id : String) (qty : Int)
        (confirm : Bool) (now : Nat) (nowIso freshToken : String) (ttl : Nat),
      (qty < MIN_QTY ∨ MAX_QTY < qty) →
      reserve_item_action skus db role sku store_id qty confirm now nowIso freshToken ttl =
        (.error .validation, db)) ∧
    (∀ (skus : List String) (db : DB) (role from_store to_store sku : String) (qty : Int)
        (confirm : Bool) (now : Nat) (nowIso freshToken : String) (ttl : Nat),
      (qty < MIN_QTY ∨ MAX_QTY < qty) →
      create_transfer_action skus db role from_store to_store sku qty confirm now nowIso
        freshToken ttl = (.error .validation, db)) := by
  constructor
  · intro skus db role sku store_id qty confirm now nowIso freshToken ttl hqty
    cases hrole : _validate_role role with
    | none => simp only [reserve_item_action, hrole]
    | some nrole =>
      simp only [reserve_item_action, hrole]
      by_cases hsku : sku ∉ skus
      · rw [if_pos hsku]
      · rw [if_neg hsku, if_pos hqty]
  · intro skus db role from_store to_store sku qty confirm now nowIso freshToken ttl hqty
    cases hrole : _validate_role role with
    | none => simp only [create_transfer_action, hrole]
    | some nrole =>
      simp only [create_transfer_action, hrole]
      by_cases hm : nrole ≠ "merch"
      · rw [if_pos hm]
      · rw [if_neg hm]
        by_cases hsku : sku ∉ skus
        · rw [if_pos hsku]
        · rw [if_neg hsku, if_pos hqty]

/-- Witness for C8: `qty = 0` and `qty = 21` are rejected with no state
change at the fixture. -/
theorem qty_guardrail_witness :
    reserve_item_action ["SKU1"] dbW "associate" "SKU1" "ST1" 0 true 900 "t1" "ft" 900 =
      (.error .validation, dbW) ∧
    create_transfer_action ["SKU1"] dbW "merch" "ST1" "ST2" "SKU1" 21 true 900 "t1" "ft" 900 =
      (.error .validation, dbW) :=
  ⟨qty_guardrail.1 ["SKU1"] dbW "associate" "SKU1" "ST1" 0 true 900 "t1" "ft" 900
      (Or.inl (by decide)),
   qty_guardrail.2 ["SKU1"] dbW "merch" "ST1" "ST2" "SKU1" 21 true 900 "t1" "ft" 900
      (Or.inr (by decide))⟩

/-- C9: a `create_ticket` gateway call whose description is empty or
whitespace-only fails validation before any HTTP call: no Ticket row is
created and no AuditEntry is appended (the state is exactly the
pre-state). -/
theorem create_ticket_action_blank_description (db : DB)
    (role store_id category severity description : String) (now : Nat) (nowIso : String)
    (hblank : pyStrip description = "") :
    create_ticket_action db role store_id category severity description now nowIso =
      (.error .validation, db) := by
  cases hrole : _validate_role role with
  | none => simp only [create_ticket_action, hrole]
  | some nrole =>
    simp only [create_ticket_action, hrole, if_pos hblank]

/-- Witness for C9: a whitespace-only description is rejected with no state
change at the fixture. -/
theorem create_ticket_action_blank_description_witness :
    create_ticket_action dbW "support" "ST1" "pos" "low" "  " 900 "t1" =
      (.error .validation, dbW) :=
  create_ticket_action_blank_description dbW "support" "ST1" "pos" "low" "  " 900 "t1"
    (by decide)

/-! ### C6: inventory lookup ordering -/

/-- C6 amended: every successful lookup response echoes the query, contains
exactly the radius-filtered annotated join rows (as a permutation, hence the
same members), and is sorted ascending by the rounded `distance_miles`.  The
order among equal distances comes from the underlying row order (Python's
stable `list.sort` on the distance key alone), not from the location id. -/
theorem inventory_lookup_sorted (db : DB) (sku store_id : String) (radius : ℚ)
    (hv : ℚ → ℚ → ℚ → ℚ → ℚ) (resp : LookupResp)
    (h : inventory_lookup db sku store_id radius hv = .ok resp) :
    resp.sku = sku ∧ resp.query_store_id = store_id ∧ resp.radius_miles = radius ∧
    List.Pairwise (fun a b : NearbyEntry => a.distance_miles ≤ b.distance_miles)
      resp.stores ∧
    ∃ base, db.stores.find? (storeKey store_id) = some base ∧
      resp.stores.Perm (nearbyEntries (joinRows db sku) base radius hv) ∧
      ∀ e, e ∈ resp.stores ↔ e ∈ nearbyEntries (joinRows db sku) base radius hv := by
  haveI htotal : IsTotal NearbyEntry
      (fun a b : NearbyEntry => a.distance_miles ≤ b.distance_miles) :=
    ⟨fun a b => le_total a.distance_miles b.distance_miles⟩
  haveI htrans : IsTrans NearbyEntry
      (fun a b : NearbyEntry => a.distance_miles ≤ b.distance_miles) :=
    ⟨fun _ _ _ hab hbc => le_trans hab hbc⟩
  cases hbase : db.stores.find? (storeKey store_id) with
  | none =>
    simp only [inventory_lookup, hbase] at h
    exact Except.noConfusion h
  | some base =>
    by_cases hrows : (joinRows db sku).isEmpty
    · simp only [inventory_lookup, hbase, if_pos hrows] at h
      exact Except.noConfusion h
    · simp only [inventory_lookup, hbase, if_neg hrows] at h
      injection h with h
      subst h
      refine ⟨rfl, rfl, rfl, ?_, base, rfl, ?_, ?_⟩
      · exact List.sorted_insertionSort _ _
      · exact List.perm_insertionSort _ _
      · intro e
        exact (List.perm_insertionSort _ _).mem_iff

/-! Fixtures for C6: two stores at identical coordinates (hence tied
distances), with the inventory rows ordered `ST2` before `ST1`. -/

def stC6a : StoreRow := ⟨"ST1", "Alpha", "Austin", "TX", "South", 0, 0⟩

def stC6b : StoreRow := ⟨"ST2", "Beta", "Dallas", "TX", "South", 0, 0⟩

def dbC6 : DB :=
  { stores := [stC6a, stC6b],
    inventory := [⟨"ST2", "SKU1", 3, 1, 2, "t0"⟩, ⟨"ST1", "SKU1", 5, 0, 2, "t0"⟩],
    confirm_tokens := [], transfers := [], inbound_transfers := [], audit_log := [],
    tickets := [] }

/-- A distance function with both stores at distance 0 from the origin
(consistent with haversine on identical coordinates). -/
def hvC6 : ℚ → ℚ → ℚ → ℚ → ℚ := fun _ _ _ _ => 0

def eC6b : NearbyEntry := ⟨"ST2", "Beta", "Dallas", "TX", 0, 3, 1, 2, "t0"⟩

def eC6a : NearbyEntry := ⟨"ST1", "Alpha", "Austin", "TX", 0, 5, 0, 5, "t0"⟩

theorem roundQ2_zero : roundQ2 0 = 0 := by
  unfold roundQ2 roundHalfEven
  norm_num

/-- Evaluation of the lookup at the C6 fixture: the tied stores come back in
row order, `ST2` before `ST1`. -/
theorem lookupC6_eval : inventory_lookup dbC6 "SKU1" "ST1" 25 hvC6 =
    .ok ⟨"SKU1", "ST1", 25, [eC6b, eC6a]⟩ := by
  have hbase : dbC6.stores.find? (storeKey "ST1") = some stC6a := by decide
  have hjoin : joinRows dbC6 "SKU1" =
      [(stC6b, ⟨"ST2", "SKU1", 3, 1, 2, "t0"⟩), (stC6a, ⟨"ST1", "SKU1", 5, 0, 2, "t0"⟩)] := by
    decide
  have hnear : nearbyEntries (joinRows dbC6 "SKU1") stC6a 25 hvC6 = [eC6b, eC6a] := by
    rw [hjoin]
    simp only [nearbyEntries, List.filterMap, hvC6]
    norm_num [roundQ2_zero, eC6b, eC6a, stC6a, stC6b]
  have hsort : sortNearby [eC6b, eC6a] = [eC6b, eC6a] := by
    simp only [sortNearby, List.insertionSort, List.orderedInsert]
    norm_num [eC6b, eC6a]
  have hne : ¬ (joinRows dbC6 "SKU1").isEmpty := by rw [hjoin]; decide
  simp only [inventory_lookup, hbase, if_neg hne, hnear, hsort]

/-- C6 counterexample: at the fixture the two stores are equidistant, yet
the response lists `ST2` before `ST1` although `"ST1" < "ST2"` — ties are
not broken by location id as the claim states; they follow the row order. -/
theorem inventory_lookup_ties_not_by_store_id :
    inventory_lookup dbC6 "SKU1" "ST1" 25 hvC6 =
      .ok ⟨"SKU1", "ST1", 25, [eC6b, eC6a]⟩ ∧
    eC6b.store_id = "ST2" ∧ eC6a.store_id = "ST1" ∧
    eC6b.distance_miles = eC6a.distance_miles ∧
    strLtB "ST1" "ST2" = true :=
  ⟨lookupC6_eval, rfl, rfl, rfl, by decide⟩

/-- Witness for C6 (amended): the fixture response is sorted by distance and
is a permutation of the filtered join rows. -/
theorem inventory_lookup_sorted_witness :
    List.Pairwise (fun a b : NearbyEntry => a.distance_miles ≤ b.distance_miles)
      (⟨"SKU1", "ST1", 25, [eC6b, eC6a]⟩ : LookupResp).stores ∧
    ∃ base, dbC6.stores.find? (storeKey "ST1") = some base ∧
      (⟨"SKU1", "ST1", 25, [eC6b, eC6a]⟩ : LookupResp).stores.Perm
        (nearbyEntries (joinRows dbC6 "SKU1") base 25 hvC6) ∧
      ∀ e, e ∈ (⟨"SKU1", "ST1", 25, [eC6b, eC6a]⟩ : LookupResp).stores ↔
        e ∈ nearbyEntries (joinRows dbC6 "SKU1") base 25 hvC6 := by
  have h := inventory_lookup_sorted dbC6 "SKU1" "ST1" 25 hvC6
    ⟨"SKU1", "ST1", 25, [eC6b, eC6a]⟩ lookupC6_eval
  exact ⟨h.2.2.2.1, h.2.2.2.2⟩

end RetailCore
